import Mathlib

set_option maxRecDepth 8000

/-!
Verification of the platform-composition logic of the `cdk-eks-platform`
repository.  The definitions below are a shallow embedding of the
TypeScript sources (`src/constructs/eks.ts`, `src/shared/eni-max-pods.ts`
and the legacy add-on installer): CDK constructs are modelled by the data
they carry, `undefined`-able TypeScript fields by `Option`, JavaScript
object literals by association lists, and template-literal interpolation
by explicit string concatenation.  Braces that occur inside generated
configuration text are written with the escapes `\x7b` / `\x7d`.
-/

namespace CdkEksPlatform

/-- Boolean substring test: `strContains s pat` is true when `pat` occurs
contiguously inside `s` (models JavaScript `String.prototype.includes`). -/
def strContains (s pat : String) : Bool :=
  s.data.tails.any (fun t => pat.data.isPrefixOf t)

/- ----------------------------------------------------------------- -/
/- Constants from `src/constructs/eks.ts` (lines 16-19).              -/
/- ----------------------------------------------------------------- -/

def DEFAULT_KUBERNETES_VERSION : String := "1.33"

/-- Model of `InstanceType.of(InstanceClass.T3, InstanceSize.MEDIUM)`,
identified by the string the CDK renders it to. -/
def DEFAULT_CAPACITY_TYPE : String := "t3.medium"

def DEFAULT_SERVICE_IPV4_CIDR : String := "172.20.0.0/16"

def DEFAULT_DNS_CLUSTER_IP : String := "172.20.0.10"

/- ----------------------------------------------------------------- -/
/- `src/shared/eni-max-pods.ts`                                       -/
/- ----------------------------------------------------------------- -/

/-- The capacity table `ENI_MAX_PODS_MAP`, transcribed entry by entry. -/
def ENI_MAX_PODS_MAP : List (String × Nat) :=
  [("c5.large", 29), ("c5.xlarge", 58), ("c5.2xlarge", 58),
   ("c5.4xlarge", 234), ("c5.9xlarge", 234), ("c5.12xlarge", 234),
   ("c5.18xlarge", 737), ("c5.24xlarge", 737), ("c5.metal", 737),
   ("c6g.medium", 8), ("c6g.large", 29), ("c6g.xlarge", 58),
   ("c6g.2xlarge", 58), ("c6g.4xlarge", 234), ("c6g.8xlarge", 234),
   ("c6g.12xlarge", 234), ("c6g.16xlarge", 737), ("c6g.metal", 737),
   ("m5.large", 29), ("m5.xlarge", 58), ("m5.2xlarge", 58),
   ("m5.4xlarge", 234), ("m5.8xlarge", 234), ("m5.12xlarge", 234),
   ("m5.16xlarge", 737), ("m5.24xlarge", 737), ("m5.metal", 737),
   ("m6g.medium", 8), ("m6g.large", 29), ("m6g.xlarge", 58),
   ("m6g.2xlarge", 58), ("m6g.4xlarge", 234), ("m6g.8xlarge", 234),
   ("m6g.12xlarge", 234), ("m6g.16xlarge", 737), ("m6g.metal", 737),
   ("r5.large", 29), ("r5.xlarge", 58), ("r5.2xlarge", 58),
   ("r5.4xlarge", 234), ("r5.8xlarge", 234), ("r5.12xlarge", 234),
   ("r5.16xlarge", 737), ("r5.24xlarge", 737), ("r5.metal", 737),
   ("r6g.medium", 8), ("r6g.large", 29), ("r6g.xlarge", 58),
   ("r6g.2xlarge", 58), ("r6g.4xlarge", 234), ("r6g.8xlarge", 234),
   ("r6g.12xlarge", 234), ("r6g.16xlarge", 737), ("r6g.metal", 737),
   ("t3.nano", 4), ("t3.micro", 4), ("t3.small", 11),
   ("t3.medium", 17), ("t3.large", 35), ("t3.xlarge", 58),
   ("t3.2xlarge", 58),
   ("t4g.nano", 4), ("t4g.micro", 4), ("t4g.small", 11),
   ("t4g.medium", 17), ("t4g.large", 35), ("t4g.xlarge", 58),
   ("t4g.2xlarge", 58)]

/-- `getMaxPodsForInstance`: exact-match lookup in the capacity table,
falling back to `defaultValue` (TypeScript `?? defaultValue`). -/
def getMaxPodsForInstance (instanceType : String) (defaultValue : Nat) : Nat :=
  (ENI_MAX_PODS_MAP.lookup instanceType).getD defaultValue

/- ----------------------------------------------------------------- -/
/- `selectKubectlLayer` (eks.ts lines 27-36)                          -/
/- ----------------------------------------------------------------- -/

/-- The two kubectl lambda-layer constructs the selector can produce. -/
inductive KubectlLayerVersion where
  | v33
  | v34
deriving DecidableEq

/-- `selectKubectlLayer`: switch on the exact version string; two
supported versions, everything else falls through to `undefined`. -/
def selectKubectlLayer (version : String) : Option KubectlLayerVersion :=
  if version = "1.33" then some KubectlLayerVersion.v33
  else if version = "1.34" then some KubectlLayerVersion.v34
  else none

structure KubectlProviderOptions where
  kubectlLayer : KubectlLayerVersion
deriving DecidableEq

/-- The slice of the cluster options assembled by the `EksPlatform`
constructor that depends on the version shim (eks.ts lines 162-179).
`kubectlProviderOptions = kubectlLayer && { kubectlLayer }` makes the
field absent when no layer was selected. -/
structure ClusterOptions where
  version : String
  kubectlProviderOptions : Option KubectlProviderOptions
  defaultCapacity : Nat
  endpointAccessPrivate : Bool
deriving DecidableEq

/-- Model of the `defaultOptions` record built in the constructor. -/
def defaultClusterOptions (version : String) : ClusterOptions :=
  { version := version
    kubectlProviderOptions :=
      (selectKubectlLayer version).map (fun l => { kubectlLayer := l })
    defaultCapacity := 0
    endpointAccessPrivate := true }

/- ----------------------------------------------------------------- -/
/- `generateCoreDnsConfig` (eks.ts lines 485-517)                     -/
/- ----------------------------------------------------------------- -/

/-- The Corefile template literal of `generateCoreDnsConfig`: the default
resolution block followed by one forwarding block for `domainName`. -/
def baseCorefile (domainName : String) (dnsIpAddresses : List String) : String :=
  ".:53 \x7b\n    errors\n    health \x7b\n        lameduck 5s\n    \x7d\n    ready\n    kubernetes cluster.local in-addr.arpa ip6.arpa \x7b\n      pods insecure\n      fallthrough in-addr.arpa ip6.arpa\n    \x7d\n    prometheus :9153\n    forward . /etc/resolv.conf\n    cache 30\n    loop\n    reload\n    loadbalance\n\x7d\n"
    ++ domainName
    ++ ":53 \x7b\n    errors\n    cache 30\n    forward . "
    ++ String.intercalate " " dnsIpAddresses
    ++ "\n    reload\n\x7d"

/-- `generateCoreDnsConfig`.  The guard is the JavaScript test
`!domainName || !dnsIpAddresses || dnsIpAddresses.length === 0`; note
that `!domainName` is also true for the empty string, which
`domainName.getD "" = ""` captures. -/
def generateCoreDnsConfig (domainName : Option String)
    (dnsIpAddresses : Option (List String)) : List (String × String) :=
  if domainName.getD "" = "" ∨ dnsIpAddresses.isNone
      ∨ (dnsIpAddresses.getD []).length = 0 then
    []
  else
    [("corefile", baseCorefile (domainName.getD "") (dnsIpAddresses.getD []))]

/- ----------------------------------------------------------------- -/
/- Add-on configuration (eks.ts lines 93-100 and 446-480)             -/
/- ----------------------------------------------------------------- -/

/-- `AddonConfig`: name, optional timing flag, optional configuration
values (a JavaScript object modelled as an association list). -/
structure AddonConfig where
  addonName : String
  beforeCompute : Option Bool
  configurationValues : Option (List (String × String))
deriving DecidableEq

/-- The `coreAddons` array built inside `addCoreAddons` (eks.ts lines
448-467): vpc-cni (beforeCompute, Windows IPAM flag when the platform has
Windows nodes), kube-proxy, and coredns whose configuration values come
from `this.generateCoreDnsConfig()` called with no arguments.  The
eks-pod-identity-agent entry present in older variants is replaced here
by a comment saying EKS 1.33+ installs it automatically. -/
def coreAddons (hasWindowsNodes : Bool) : List AddonConfig :=
  [{ addonName := "vpc-cni"
     beforeCompute := some true
     configurationValues :=
       if hasWindowsNodes then some [("enableWindowsIpam", "true")] else none },
   { addonName := "kube-proxy"
     beforeCompute := none
     configurationValues := none },
   { addonName := "coredns"
     beforeCompute := none
     configurationValues := some (generateCoreDnsConfig none none) }]

/-- The `coreAddons` array of the legacy installer (`installAddons` in
the unnamed legacy construct file, lines 438-461, identical in
`eks.auto.ts`): it additionally declares `eks-pod-identity-agent` with
`beforeCompute: true`. -/
def coreAddonsLegacy (hasWindowsNodes : Bool) : List AddonConfig :=
  [{ addonName := "vpc-cni"
     beforeCompute := some true
     configurationValues :=
       if hasWindowsNodes then some [("enableWindowsIpam", "true")] else none },
   { addonName := "kube-proxy"
     beforeCompute := none
     configurationValues := none },
   { addonName := "eks-pod-identity-agent"
     beforeCompute := some true
     configurationValues := none },
   { addonName := "coredns"
     beforeCompute := none
     configurationValues := some (generateCoreDnsConfig none none) }]

/-- An installed add-on together with the node-group dependencies that
`addon.node.addDependency(nodeGroup)` attached to it. -/
structure AddonGraphNode where
  config : AddonConfig
  predecessors : List String
deriving DecidableEq

/-- The installation loop of `addCoreAddons` (eks.ts lines 469-479): one
`Addon` per config; when `beforeCompute !== true` a dependency on every
node group of the platform is added. -/
def addCoreAddonsGraph (hasWindowsNodes : Bool)
    (nodeGroupIds : List String) : List AddonGraphNode :=
  (coreAddons hasWindowsNodes).map (fun config =>
    { config := config
      predecessors :=
        if config.beforeCompute = some true then [] else nodeGroupIds })

/- ----------------------------------------------------------------- -/
/- Node groups (eks.ts lines 38-88 and 230-320)                       -/
/- ----------------------------------------------------------------- -/

/-- OS family reported by `machineImage.getImage(scope).osType`. -/
inductive OperatingSystemType where
  | LINUX
  | WINDOWS
deriving DecidableEq

/-- The data `createUserData` reads from `machineImage.getImage(scope)`. -/
structure MachineImageDetails where
  imageId : String
  osType : OperatingSystemType
deriving DecidableEq

/-- `ManagedNodeGroup` input record; optional TypeScript fields are
`Option`s, `labels` is an object iterated in insertion order. -/
structure ManagedNodeGroup where
  id : String
  machineImage : MachineImageDetails
  nodegroupName : Option String
  instanceTypes : Option (List String)
  minSize : Option Nat
  maxSize : Option Nat
  desiredSize : Option Nat
  labels : Option (List (String × String))
  enableDomainJoin : Option Bool
deriving DecidableEq

/-- `ActiveDirectoryConfig` (eks.ts lines 67-88). -/
structure ActiveDirectoryConfig where
  directoryId : String
  domainName : String
  dnsIpAddresses : List String
  organizationalUnit : Option String
deriving DecidableEq

/-- Sizes resolved by `addManagedNodeGroup` (eks.ts lines 234-236):
`minSize ?? 1`, `maxSize ?? 3`, `desiredSize ?? minSize`. -/
structure ResolvedNodegroupSizes where
  minSize : Nat
  maxSize : Nat
  desiredSize : Nat
deriving DecidableEq

def resolveNodegroupSizes (nodegroup : ManagedNodeGroup) : ResolvedNodegroupSizes :=
  { minSize := nodegroup.minSize.getD 1
    maxSize := nodegroup.maxSize.getD 3
    desiredSize := nodegroup.desiredSize.getD (nodegroup.minSize.getD 1) }

/-- `nodegroupName ?? id` (eks.ts line 231). -/
def resolveNodegroupName (nodegroup : ManagedNodeGroup) : String :=
  nodegroup.nodegroupName.getD nodegroup.id

/-- The SSM association `addManagedNodeGroup` creates for domain joining
(eks.ts lines 295-311). -/
structure DomainJoinRequest where
  associationName : String
  targetNodegroupNames : List String
  directoryId : List String
  directoryName : List String
  directoryOU : List String
deriving DecidableEq

def mkDomainJoinRequest (nodegroup : ManagedNodeGroup)
    (cfg : ActiveDirectoryConfig) : DomainJoinRequest :=
  { associationName := "AWS-JoinDirectoryServiceDomain"
    targetNodegroupNames := [resolveNodegroupName nodegroup]
    directoryId := [cfg.directoryId]
    directoryName := [cfg.domainName]
    directoryOU :=
      match cfg.organizationalUnit with
      | some ou => [ou]
      | none => [] }

/-- The guard `if (nodegroup.enableDomainJoin && directoryConfig)`
(eks.ts line 294): an association is created exactly when the flag is
truthy and a directory configuration was supplied. -/
def domainJoinRequest (nodegroup : ManagedNodeGroup)
    (directoryConfig : Option ActiveDirectoryConfig) : Option DomainJoinRequest :=
  match nodegroup.enableDomainJoin.getD false, directoryConfig with
  | true, some cfg => some (mkDomainJoinRequest nodegroup cfg)
  | true, none => none
  | false, _ => none

/-- The constructor loop (eks.ts lines 187-194) calls
`addManagedNodeGroup` once per declared node group, so at most one
association is emitted per group. -/
def platformDomainJoinRequests (nodeGroups : List ManagedNodeGroup)
    (directoryConfig : Option ActiveDirectoryConfig) : List DomainJoinRequest :=
  nodeGroups.filterMap (fun n => domainJoinRequest n directoryConfig)

/- ----------------------------------------------------------------- -/
/- `createUserData` (eks.ts lines 365-440)                            -/
/- ----------------------------------------------------------------- -/

/-- The cluster attributes interpolated into user data. -/
structure ClusterConnection where
  clusterName : String
  clusterEndpoint : String
  clusterCertificateAuthorityData : String
deriving DecidableEq

/-- The fields of the resolved `NodegroupOptions` that `createUserData`
reads (`nodegroupName` is already resolved at the call site). -/
structure NodegroupOptions where
  nodegroupName : String
  labels : Option (List (String × String))
  instanceTypes : Option (List String)
deriving DecidableEq

/-- The `nodeLabels` array (eks.ts lines 375-384): three machine-derived
labels, then the caller labels in insertion order as `key=value`. -/
def nodeLabels (imageId nodegroupName : String)
    (labels : Option (List (String × String))) : List String :=
  ["eks.amazonaws.com/nodegroup-image=" ++ imageId,
   "eks.amazonaws.com/capacityType=ON_DEMAND",
   "eks.amazonaws.com/nodegroup=" ++ nodegroupName]
  ++ (labels.getD []).map (fun kv => kv.1 ++ "=" ++ kv.2)

/-- `nodeLabels.join(',')` (eks.ts line 385). -/
def nodeLabelString (imageId nodegroupName : String)
    (labels : Option (List (String × String))) : String :=
  String.intercalate "," (nodeLabels imageId nodegroupName labels)

/-- `Math.min(...xs)`: `none` stands for the `Infinity` JavaScript
returns on an empty argument list. -/
def mathMinList : List Nat → Option Nat
  | [] => none
  | x :: xs => some (xs.foldl min x)

/-- The `maxPodsSupport` array (eks.ts lines 388-391). -/
def maxPodsSupport (instanceTypes : Option (List String)) : List Nat :=
  (instanceTypes.getD [DEFAULT_CAPACITY_TYPE]).map
    (fun t => getMaxPodsForInstance t 17)

/-- `const maxPods = Math.min(...maxPodsSupport)` (eks.ts line 392). -/
def groupMaxPods (instanceTypes : Option (List String)) : Option Nat :=
  mathMinList (maxPodsSupport instanceTypes)

/-- How the `maxPods` number prints inside the payload templates. -/
def maxPodsRendered : Option Nat → String
  | some m => toString m
  | none => "Infinity"

/-- The Linux user-data line array (eks.ts lines 395-419), joined with
newlines by the source. -/
def linuxUserDataLines (cluster : ClusterConnection)
    (machineImage : MachineImageDetails)
    (options : NodegroupOptions) : List String :=
  ["MIME-Version: 1.0",
   "Content-Type: multipart/mixed; boundary=\"//\"",
   "",
   "--//",
   "Content-Type: application/node.eks.aws",
   "",
   "---",
   "apiVersion: node.eks.aws/v1alpha1",
   "kind: NodeConfig",
   "spec:",
   "  cluster:",
   "    apiServerEndpoint: " ++ cluster.clusterEndpoint,
   "    certificateAuthority: " ++ cluster.clusterCertificateAuthorityData,
   "    cidr: " ++ DEFAULT_SERVICE_IPV4_CIDR,
   "    name: " ++ cluster.clusterName,
   "  kubelet:",
   "    config:",
   "      maxPods: " ++ maxPodsRendered (groupMaxPods options.instanceTypes),
   "      clusterDNS:",
   "      - " ++ DEFAULT_DNS_CLUSTER_IP,
   "    flags:",
   "    - \"--node-labels="
     ++ nodeLabelString machineImage.imageId options.nodegroupName options.labels
     ++ "\"",
   "--//--"]

/-- The Windows EC2Launch-v2 template literal (eks.ts lines 424-436);
`\\` in the TypeScript source renders a single backslash. -/
def windowsUserDataContent (cluster : ClusterConnection)
    (machineImage : MachineImageDetails)
    (options : NodegroupOptions) : String :=
  "version: 1.0\ntasks:\n  - task: executeScript\n    inputs:\n      - frequency: always\n        type: powershell\n        runAs: admin\n        content: |-\n          Write-Output \"Starting EKS bootstrap process...\"\n          [string]$EKSBootstrapScriptFile = \"$env:ProgramFiles\\Amazon\\EKS\\Start-EKSBootstrap.ps1\"\n          & $EKSBootstrapScriptFile -EKSClusterName \""
    ++ cluster.clusterName
    ++ "\" -APIServerEndpoint \""
    ++ cluster.clusterEndpoint
    ++ "\" -Base64ClusterCA \""
    ++ cluster.clusterCertificateAuthorityData
    ++ "\" -DNSClusterIP \""
    ++ DEFAULT_DNS_CLUSTER_IP
    ++ "\" -ServiceCIDR \""
    ++ DEFAULT_SERVICE_IPV4_CIDR
    ++ "\" -KubeletExtraArgs \"--node-labels="
    ++ nodeLabelString machineImage.imageId options.nodegroupName options.labels
    ++ " --max-pods "
    ++ maxPodsRendered (groupMaxPods options.instanceTypes)
    ++ "\"\n          \n          Write-Output \"EKS bootstrap script completed successfully\""

/-- `createUserData` (eks.ts lines 365-440): Linux content is built
first and overridden by the Windows template when the image's OS type is
Windows. -/
def createUserDataContent (cluster : ClusterConnection)
    (machineImage : MachineImageDetails)
    (options : NodegroupOptions) : String :=
  match machineImage.osType with
  | OperatingSystemType.WINDOWS => windowsUserDataContent cluster machineImage options
  | OperatingSystemType.LINUX =>
      String.intercalate "\n" (linuxUserDataLines cluster machineImage options)

/- ----------------------------------------------------------------- -/
/- Shared helper lemmas and concrete fixtures                         -/
/- ----------------------------------------------------------------- -/

/-- Two strings differ when the first is a concatenation whose left part
is nonempty and starts with a different character. -/
theorem append_ne_of_head (a b c : String) (hne : a.data ≠ [])
    (h : a.data.head? ≠ c.data.head?) : a ++ b ≠ c := by
  intro e
  apply h
  rw [← e, String.data_append]
  cases hd : a.data with
  | nil => exact absurd hd hne
  | cons x xs => simp [hd]

/-- A lookup in an association list with pairwise distinct keys returns
the value of any member pair. -/
theorem lookup_eq_some_of_mem (l : List (String × Nat)) (k : String) (v : Nat)
    (hnd : (l.map Prod.fst).Nodup) (hmem : (k, v) ∈ l) :
    l.lookup k = some v := by
  induction l with
  | nil => cases hmem
  | cons p ps ih =>
      rw [List.mem_cons] at hmem
      rcases hmem with hmem | hmem
      · rw [← hmem, List.lookup_cons]
        simp
      · have hk : k ≠ p.1 := by
          intro hkp
          have : p.1 ∈ ps.map Prod.fst := by
            rw [← hkp]
            exact List.mem_map.2 ⟨(k, v), hmem, rfl⟩
          exact (List.nodup_cons.1 hnd).1 this
        obtain ⟨k1, v1⟩ := p
        rw [List.lookup_cons]
        have : (k == k1) = false := by
          simpa using hk
        rw [this]
        exact ih (List.nodup_cons.1 hnd).2 hmem

/-- `mathMinList` agrees with `List.min?`. -/
theorem mathMinList_eq_min? (l : List Nat) : mathMinList l = l.min? := by
  cases l <;> rfl

def sampleCluster : ClusterConnection :=
  { clusterName := "demo-cluster"
    clusterEndpoint := "https://ABC.gr7.us-east-1.eks.amazonaws.com"
    clusterCertificateAuthorityData := "LS0tLS1CRUdJTg==" }

def sampleOptions : NodegroupOptions :=
  { nodegroupName := "ng-x"
    labels := some [("team", "infra")]
    instanceTypes := some ["c5.large", "m5.xlarge"] }

def sampleLinuxImage : MachineImageDetails :=
  { imageId := "ami-1", osType := OperatingSystemType.LINUX }

def sampleWindowsImage : MachineImageDetails :=
  { imageId := "ami-1", osType := OperatingSystemType.WINDOWS }

def sampleDirectory : ActiveDirectoryConfig :=
  { directoryId := "d-1234567890"
    domainName := "corp.example"
    dnsIpAddresses := ["10.0.0.2"]
    organizationalUnit := none }

/-- A node group that opts into domain joining and otherwise uses every
default. -/
def sampleJoinNodegroup : ManagedNodeGroup :=
  { id := "win-ng"
    machineImage := { imageId := "ami-2", osType := OperatingSystemType.WINDOWS }
    nodegroupName := none
    instanceTypes := none
    minSize := none
    maxSize := none
    desiredSize := none
    labels := none
    enableDomainJoin := some true }

/-- A node group that sets none of the optional fields. -/
def sampleNodegroup : ManagedNodeGroup :=
  { id := "plain-ng"
    machineImage := { imageId := "ami-3", osType := OperatingSystemType.LINUX }
    nodegroupName := none
    instanceTypes := none
    minSize := none
    maxSize := none
    desiredSize := none
    labels := none
    enableDomainJoin := none }

/- ----------------------------------------------------------------- -/
/- Claim theorems                                                     -/
/- ----------------------------------------------------------------- -/

/-- Claim C5: the version shim selector returns a distinct, non-absent
shim identifier for exactly the version strings "1.33" and "1.34" (exact
string match), returns absent for every other version string, and an
absent shim does not fail composition: the cluster options are still
produced, with the kubectl-provider field absent. -/
theorem c5_version_shim_selector :
    selectKubectlLayer "1.33" = some KubectlLayerVersion.v33
    ∧ selectKubectlLayer "1.34" = some KubectlLayerVersion.v34
    ∧ KubectlLayerVersion.v33 ≠ KubectlLayerVersion.v34
    ∧ (∀ version : String, version ≠ "1.33" → version ≠ "1.34" →
        selectKubectlLayer version = none)
    ∧ (∀ version : String, version ≠ "1.33" → version ≠ "1.34" →
        defaultClusterOptions version =
          { version := version
            kubectlProviderOptions := none
            defaultCapacity := 0
            endpointAccessPrivate := true }) := by
  have hnone : ∀ version : String, version ≠ "1.33" → version ≠ "1.34" →
      selectKubectlLayer version = none := by
    intro v h1 h2
    simp [selectKubectlLayer, h1, h2]
  refine ⟨rfl, rfl, by decide, hnone, ?_⟩
  intro v h1 h2
  simp [defaultClusterOptions, hnone v h1 h2]

/-- Witness for C5 at the unsupported version "1.32". -/
theorem c5_version_shim_selector_witness :
    selectKubectlLayer "1.32" = none
    ∧ defaultClusterOptions "1.32" =
        { version := "1.32"
          kubectlProviderOptions := none
          defaultCapacity := 0
          endpointAccessPrivate := true } :=
  ⟨c5_version_shim_selector.2.2.2.1 "1.32" (by decide) (by decide),
   c5_version_shim_selector.2.2.2.2 "1.32" (by decide) (by decide)⟩

/-- Claim C10: when `desiredSize` is unspecified the resolved desired
size equals the resolved min size; min defaults to 1 and max to 3, so a
node group specifying none of the three satisfies min ≤ desired ≤ max. -/
theorem c10_desired_size_defaults (nodegroup : ManagedNodeGroup)
    (h : nodegroup.desiredSize = none) :
    (resolveNodegroupSizes nodegroup).desiredSize
        = (resolveNodegroupSizes nodegroup).minSize
    ∧ (nodegroup.minSize = none → (resolveNodegroupSizes nodegroup).minSize = 1)
    ∧ (nodegroup.maxSize = none → (resolveNodegroupSizes nodegroup).maxSize = 3)
    ∧ (nodegroup.minSize = none → nodegroup.maxSize = none →
        (resolveNodegroupSizes nodegroup).minSize
            ≤ (resolveNodegroupSizes nodegroup).desiredSize
        ∧ (resolveNodegroupSizes nodegroup).desiredSize
            ≤ (resolveNodegroupSizes nodegroup).maxSize) := by
  refine ⟨by simp [resolveNodegroupSizes, h], ?_, ?_, ?_⟩
  · intro hmin
    simp [resolveNodegroupSizes, hmin]
  · intro hmax
    simp [resolveNodegroupSizes, hmax]
  · intro hmin hmax
    simp [resolveNodegroupSizes, h, hmin, hmax]

/-- Witness for C10: a node group with none of min, max, desired set. -/
theorem c10_desired_size_defaults_witness :
    (resolveNodegroupSizes sampleNodegroup).desiredSize
        = (resolveNodegroupSizes sampleNodegroup).minSize
    ∧ (resolveNodegroupSizes sampleNodegroup).minSize = 1
    ∧ (resolveNodegroupSizes sampleNodegroup).maxSize = 3
    ∧ (resolveNodegroupSizes sampleNodegroup).minSize
          ≤ (resolveNodegroupSizes sampleNodegroup).desiredSize
    ∧ (resolveNodegroupSizes sampleNodegroup).desiredSize
          ≤ (resolveNodegroupSizes sampleNodegroup).maxSize := by
  have h := c10_desired_size_defaults sampleNodegroup rfl
  exact ⟨h.1, h.2.1 rfl, h.2.2.1 rfl, (h.2.2.2 rfl rfl).1, (h.2.2.2 rfl rfl).2⟩

/-- Claim C9: a domain-join request is emitted for a node group exactly
when its domain-join flag is set and a DirectoryConfig was supplied;
otherwise emission is silently suppressed; one request per qualifying
group. -/
theorem c9_domain_join_emission (nodegroup : ManagedNodeGroup)
    (directoryConfig : Option ActiveDirectoryConfig) :
    ((domainJoinRequest nodegroup directoryConfig).isSome = true
      ↔ (nodegroup.enableDomainJoin = some true ∧ directoryConfig.isSome = true))
    ∧ (∀ nodeGroups : List ManagedNodeGroup,
        platformDomainJoinRequests nodeGroups none = [])
    ∧ (∀ nodeGroups : List ManagedNodeGroup, ∀ cfg : ActiveDirectoryConfig,
        platformDomainJoinRequests nodeGroups (some cfg)
          = (nodeGroups.filter (fun n => n.enableDomainJoin.getD false)).map
              (fun n => mkDomainJoinRequest n cfg)) := by
  have hflag : ∀ n : ManagedNodeGroup,
      (n.enableDomainJoin.getD false = true) ↔ n.enableDomainJoin = some true := by
    intro n
    cases hd : n.enableDomainJoin with
    | none => simp
    | some b => cases b <;> simp
  refine ⟨?_, ?_, ?_⟩
  · cases hd : nodegroup.enableDomainJoin with
    | none => cases directoryConfig <;> simp [domainJoinRequest, hd]
    | some b => cases b <;> cases directoryConfig <;> simp [domainJoinRequest, hd]
  · intro ngs
    induction ngs with
    | nil => rfl
    | cons n ns ih =>
        have hn : domainJoinRequest n none = none := by
          cases hd : n.enableDomainJoin.getD false <;> simp [domainJoinRequest, hd]
        simpa [platformDomainJoinRequests, List.filterMap_cons, hn]
          using ih
  · intro ngs cfg
    induction ngs with
    | nil => rfl
    | cons n ns ih =>
        cases hd : n.enableDomainJoin.getD false with
        | false =>
            simpa [platformDomainJoinRequests, List.filterMap_cons,
              domainJoinRequest, hd, List.filter_cons] using ih
        | true =>
            simpa [platformDomainJoinRequests, List.filterMap_cons,
              domainJoinRequest, hd, List.filter_cons] using ih

/-- Witness for C9: one qualifying and one non-qualifying node group
produce exactly one request, targeting the qualifying group. -/
theorem c9_domain_join_emission_witness :
    platformDomainJoinRequests [sampleJoinNodegroup, sampleNodegroup]
        (some sampleDirectory)
      = [mkDomainJoinRequest sampleJoinNodegroup sampleDirectory] := by
  rw [(c9_domain_join_emission sampleJoinNodegroup (some sampleDirectory)).2.2
      [sampleJoinNodegroup, sampleNodegroup] sampleDirectory]
  decide

/-- Claim C1: in the composed add-on graph, every add-on with
`beforeCompute = true` has an empty predecessor set, every add-on with
the flag unset or false has the full node-group list as predecessors
(never a proper subset), and with an empty node-group list every
predecessor set is empty while composition still yields the graph. -/
theorem c1_addon_predecessors (hasWindowsNodes : Bool)
    (nodeGroupIds : List String) (node : AddonGraphNode)
    (h : node ∈ addCoreAddonsGraph hasWindowsNodes nodeGroupIds) :
    (node.config.beforeCompute = some true → node.predecessors = [])
    ∧ (node.config.beforeCompute ≠ some true → node.predecessors = nodeGroupIds)
    ∧ (nodeGroupIds = [] → node.predecessors = []) := by
  obtain ⟨config, hc, rfl⟩ := List.mem_map.1 h
  refine ⟨fun ht => ?_, fun ht => ?_, fun hng => ?_⟩
  · simp only at ht
    simp [ht]
  · simp only at ht
    simp [ht]
  · by_cases hb : config.beforeCompute = some true <;> simp [hb, hng]

/-- Witness for C1: in a platform with node groups `ng1`, `ng2`, the
kube-proxy add-on (flag unset) depends on exactly both node groups. -/
theorem c1_addon_predecessors_witness :
    ({ config := { addonName := "kube-proxy"
                   beforeCompute := none
                   configurationValues := none }
       predecessors := ["ng1", "ng2"] } : AddonGraphNode).predecessors
      = ["ng1", "ng2"] :=
  (c1_addon_predecessors false ["ng1", "ng2"] _ (by decide)).2.1 (by decide)

/-- Claim C3 counterexample: the current composer (`addCoreAddons` in
`eks.ts`) declares only three add-ons — the eks-pod-identity-agent is
absent for either value of `hasWindowsNodes`, so the baseline is not the
claimed four. -/
theorem c3_baseline_counterexample :
    (coreAddons false).map (fun a => a.addonName)
        = ["vpc-cni", "kube-proxy", "coredns"]
    ∧ ((coreAddons false).map (fun a => a.addonName)).contains
        "eks-pod-identity-agent" = false
    ∧ ((coreAddons true).map (fun a => a.addonName)).contains
        "eks-pod-identity-agent" = false := by
  decide

/-- Claim C3 (amended): the composer always includes the CNI, the proxy
and DNS; the pod-identity agent is declared only by the legacy installer
(`installAddons` / `eks.auto.ts`), while `addCoreAddons` in `eks.ts`
deliberately omits it (EKS 1.33+ installs it automatically). -/
theorem c3_baseline_addons :
    (∀ hasWindowsNodes : Bool,
      (coreAddons hasWindowsNodes).map (fun a => a.addonName)
        = ["vpc-cni", "kube-proxy", "coredns"])
    ∧ (∀ hasWindowsNodes : Bool,
      (coreAddonsLegacy hasWindowsNodes).map (fun a => a.addonName)
        = ["vpc-cni", "kube-proxy", "eks-pod-identity-agent", "coredns"]) := by
  constructor <;> intro h <;> cases h <;> rfl

/-- Claim C2: `addCoreAddons` attaches to the coredns add-on the result
of `this.generateCoreDnsConfig()` called with no arguments, which is the
empty configuration — the supplied directory parameters never reach the
generator, whereas the generator applied to them would contain the
domain-scoped forwarding block. -/
theorem c2_coredns_config_not_from_directory :
    (∀ (hasWindowsNodes : Bool) (nodeGroupIds : List String),
      (addCoreAddonsGraph hasWindowsNodes nodeGroupIds).filterMap
          (fun n => if n.config.addonName = "coredns"
            then some n.config.configurationValues else none)
        = [some (generateCoreDnsConfig none none)])
    ∧ generateCoreDnsConfig none none = []
    ∧ generateCoreDnsConfig (some "corp.example") (some ["10.0.0.2"])
        = [("corefile", baseCorefile "corp.example" ["10.0.0.2"])]
    ∧ strContains (baseCorefile "corp.example" ["10.0.0.2"])
        "corp.example:53 \x7b" = true
    ∧ strContains (baseCorefile "corp.example" ["10.0.0.2"])
        "forward . 10.0.0.2" = true := by
  refine ⟨?_, by decide, by decide, by decide, by decide⟩
  intro hasWindowsNodes nodeGroupIds
  cases hasWindowsNodes <;>
    simp [addCoreAddonsGraph, coreAddons, List.filterMap_cons]

/-- Claim C8 counterexample: for a present-but-empty domain string with a
non-empty address list the claim's "otherwise" case promises a map with
exactly one key, but the JavaScript falsiness test `!domainName` also
fires on the empty string, so the function returns the empty map. -/
theorem c8_coredns_generator_counterexample :
    generateCoreDnsConfig (some "") (some ["10.0.0.2"]) = []
    ∧ ¬ (generateCoreDnsConfig (some "") (some ["10.0.0.2"])).length = 1 := by
  decide

/-- Claim C8 (amended): the generator returns the empty map whenever the
domain is absent or empty, or the address list is absent or empty;
otherwise it returns a single `corefile` entry whose value is the default
resolution block concatenated with a block scoped to the domain at port
53 forwarding to the space-joined addresses. -/
theorem c8_coredns_generator (domainName : String)
    (dnsIpAddresses : List String) (hd : domainName ≠ "")
    (ha : dnsIpAddresses ≠ []) :
    generateCoreDnsConfig (some domainName) (some dnsIpAddresses)
        = [("corefile", baseCorefile domainName dnsIpAddresses)]
    ∧ (∀ a : Option (List String), generateCoreDnsConfig none a = [])
    ∧ (∀ d : Option String, generateCoreDnsConfig d none = [])
    ∧ (∀ d : Option String, generateCoreDnsConfig d (some []) = [])
    ∧ (∀ a : Option (List String), generateCoreDnsConfig (some "") a = [])
    ∧ baseCorefile domainName dnsIpAddresses
        = ".:53 \x7b\n    errors\n    health \x7b\n        lameduck 5s\n    \x7d\n    ready\n    kubernetes cluster.local in-addr.arpa ip6.arpa \x7b\n      pods insecure\n      fallthrough in-addr.arpa ip6.arpa\n    \x7d\n    prometheus :9153\n    forward . /etc/resolv.conf\n    cache 30\n    loop\n    reload\n    loadbalance\n\x7d\n"
          ++ domainName
          ++ ":53 \x7b\n    errors\n    cache 30\n    forward . "
          ++ String.intercalate " " dnsIpAddresses
          ++ "\n    reload\n\x7d"
    ∧ strContains (baseCorefile "corp.example" ["10.0.0.2"])
        "forward . /etc/resolv.conf" = true
    ∧ strContains (baseCorefile "corp.example" ["10.0.0.2"])
        "corp.example:53 \x7b\n    errors\n    cache 30\n    forward . 10.0.0.2\n    reload\n\x7d" = true := by
  refine ⟨?_, ?_, ?_, ?_, ?_, rfl, by decide, by decide⟩
  · simp [generateCoreDnsConfig, hd, ha]
  · intro a
    simp [generateCoreDnsConfig]
  · intro d
    simp [generateCoreDnsConfig]
  · intro d
    simp [generateCoreDnsConfig]
  · intro a
    simp [generateCoreDnsConfig]

/-- Witness for C8 at the spec's example input. -/
theorem c8_coredns_generator_witness :
    generateCoreDnsConfig (some "corp.example") (some ["10.0.0.2"])
      = [("corefile", baseCorefile "corp.example" ["10.0.0.2"])] :=
  (c8_coredns_generator "corp.example" ["10.0.0.2"]
    (by decide) (by decide)).1

/-- Claim C4: a known key resolves to exactly its tabulated value (exact,
case-sensitive match), an unknown key resolves to the supplied default,
the per-group capacity is the minimum over the declared instance types,
and the group `[c5.large, m5.xlarge]` resolves to 29. -/
theorem c4_max_pods_resolution :
    (∀ (k : String) (v : Nat) (d : Nat), (k, v) ∈ ENI_MAX_PODS_MAP →
        getMaxPodsForInstance k d = v)
    ∧ (∀ (k : String) (d : Nat), ENI_MAX_PODS_MAP.lookup k = none →
        getMaxPodsForInstance k d = d)
    ∧ (∀ (instanceTypes : List String) (m : Nat),
        groupMaxPods (some instanceTypes) = some m →
        (∀ t ∈ instanceTypes, m ≤ getMaxPodsForInstance t 17)
        ∧ ∃ t ∈ instanceTypes, getMaxPodsForInstance t 17 = m)
    ∧ groupMaxPods (some ["c5.large", "m5.xlarge"]) = some 29
    ∧ getMaxPodsForInstance "c5.large" 17 = 29
    ∧ getMaxPodsForInstance "m5.xlarge" 17 = 58 := by
  refine ⟨?_, ?_, ?_, by decide, by decide, by decide⟩
  · intro k v d hmem
    have hnd : (ENI_MAX_PODS_MAP.map Prod.fst).Nodup := by decide
    rw [getMaxPodsForInstance, lookup_eq_some_of_mem ENI_MAX_PODS_MAP k v hnd hmem]
    rfl
  · intro k d hnone
    rw [getMaxPodsForInstance, hnone]
    rfl
  · intro instanceTypes m hmin
    rw [groupMaxPods, maxPodsSupport, Option.getD, mathMinList_eq_min?] at hmin
    have h := List.min?_eq_some_iff'.1 hmin
    constructor
    · intro t ht
      exact h.2 (getMaxPodsForInstance t 17)
        (List.mem_map.2 ⟨t, ht, rfl⟩)
    · obtain ⟨t, ht, hv⟩ := List.mem_map.1 h.1
      exact ⟨t, ht, hv⟩

/-- Witness for C4: the minimum characterisation applied to the group
declaring c5.large and m5.xlarge. -/
theorem c4_max_pods_resolution_witness :
    getMaxPodsForInstance "c5.large" 17 = 29
    ∧ 29 ≤ getMaxPodsForInstance "c5.large" 17
    ∧ 29 ≤ getMaxPodsForInstance "m5.xlarge" 17
    ∧ getMaxPodsForInstance "t3.kilo" 5 = 5 := by
  refine ⟨?_, ?_, ?_, ?_⟩
  · exact c4_max_pods_resolution.1 "c5.large" 29 17 (by decide)
  · exact (c4_max_pods_resolution.2.2.1 ["c5.large", "m5.xlarge"] 29
      c4_max_pods_resolution.2.2.2.1).1 "c5.large" (by decide)
  · exact (c4_max_pods_resolution.2.2.1 ["c5.large", "m5.xlarge"] 29
      c4_max_pods_resolution.2.2.2.1).1 "m5.xlarge" (by decide)
  · exact c4_max_pods_resolution.2.1 "t3.kilo" 5 (by decide)

/-- Claim C7: the joined node-label string is the three machine-derived
labels in fixed order, then the caller labels in insertion order as
key=value, comma-joined; the `ng-x` scenario yields exactly the claimed
string. -/
theorem c7_node_label_order :
    (∀ (imageId nodegroupName : String)
        (labels : Option (List (String × String))),
      (nodeLabels imageId nodegroupName labels).take 3
          = ["eks.amazonaws.com/nodegroup-image=" ++ imageId,
             "eks.amazonaws.com/capacityType=ON_DEMAND",
             "eks.amazonaws.com/nodegroup=" ++ nodegroupName]
      ∧ (nodeLabels imageId nodegroupName labels).drop 3
          = (labels.getD []).map (fun kv => kv.1 ++ "=" ++ kv.2)
      ∧ nodeLabelString imageId nodegroupName labels
          = String.intercalate "," (nodeLabels imageId nodegroupName labels))
    ∧ nodeLabelString "ami-1" "ng-x" (some [("team", "infra")])
        = "eks.amazonaws.com/nodegroup-image=ami-1,eks.amazonaws.com/capacityType=ON_DEMAND,eks.amazonaws.com/nodegroup=ng-x,team=infra" := by
  exact ⟨fun imageId nodegroupName labels => ⟨rfl, rfl, rfl⟩, by decide⟩

/-- Claim C6: a Windows-family image yields the plain-text automation
script — it invokes the fixed bootstrap entry point and (at the sample
input) contains no MIME multipart envelope; a Linux-family image yields
the MIME multipart envelope with exactly one part of content-type
`application/node.eks.aws` embedding endpoint, certificate authority,
service CIDR, cluster name, max-pod count, cluster DNS IP and the
node-labels kubelet flag, and (at the sample input) contains no
automation script. -/
theorem c6_bootstrap_payload (cluster : ClusterConnection)
    (machineImage : MachineImageDetails) (options : NodegroupOptions) :
    (machineImage.osType = OperatingSystemType.WINDOWS →
      createUserDataContent cluster machineImage options
          = windowsUserDataContent cluster machineImage options
      ∧ ("version: 1.0\ntasks:\n  - task: executeScript\n    inputs:\n      - frequency: always\n        type: powershell\n        runAs: admin\n        content: |-\n          Write-Output \"Starting EKS bootstrap process...\"\n          [string]$EKSBootstrapScriptFile = \"$env:ProgramFiles\\Amazon\\EKS\\Start-EKSBootstrap.ps1\"\n          & $EKSBootstrapScriptFile -EKSClusterName \"" : String).data
          <+: (createUserDataContent cluster machineImage options).data)
    ∧ (machineImage.osType = OperatingSystemType.LINUX →
      createUserDataContent cluster machineImage options
          = String.intercalate "\n" (linuxUserDataLines cluster machineImage options)
      ∧ (linuxUserDataLines cluster machineImage options).count
          "Content-Type: application/node.eks.aws" = 1
      ∧ "MIME-Version: 1.0" ∈ linuxUserDataLines cluster machineImage options
      ∧ "Content-Type: multipart/mixed; boundary=\"//\""
          ∈ linuxUserDataLines cluster machineImage options
      ∧ ("    apiServerEndpoint: " ++ cluster.clusterEndpoint)
          ∈ linuxUserDataLines cluster machineImage options
      ∧ ("    certificateAuthority: " ++ cluster.clusterCertificateAuthorityData)
          ∈ linuxUserDataLines cluster machineImage options
      ∧ ("    cidr: " ++ DEFAULT_SERVICE_IPV4_CIDR)
          ∈ linuxUserDataLines cluster machineImage options
      ∧ ("    name: " ++ cluster.clusterName)
          ∈ linuxUserDataLines cluster machineImage options
      ∧ ("      maxPods: " ++ maxPodsRendered (groupMaxPods options.instanceTypes))
          ∈ linuxUserDataLines cluster machineImage options
      ∧ ("      - " ++ DEFAULT_DNS_CLUSTER_IP)
          ∈ linuxUserDataLines cluster machineImage options
      ∧ ("    - \"--node-labels="
            ++ nodeLabelString machineImage.imageId options.nodegroupName options.labels
            ++ "\"")
          ∈ linuxUserDataLines cluster machineImage options)
    ∧ strContains (createUserDataContent sampleCluster sampleWindowsImage sampleOptions)
        "MIME-Version" = false
    ∧ strContains (createUserDataContent sampleCluster sampleWindowsImage sampleOptions)
        "multipart" = false
    ∧ strContains (createUserDataContent sampleCluster sampleWindowsImage sampleOptions)
        "-EKSClusterName \"demo-cluster\"" = true
    ∧ strContains (createUserDataContent sampleCluster sampleWindowsImage sampleOptions)
        "-DNSClusterIP \"172.20.0.10\"" = true
    ∧ strContains (createUserDataContent sampleCluster sampleWindowsImage sampleOptions)
        "-ServiceCIDR \"172.20.0.0/16\"" = true
    ∧ strContains (createUserDataContent sampleCluster sampleWindowsImage sampleOptions)
        " --max-pods 29" = true
    ∧ strContains (createUserDataContent sampleCluster sampleLinuxImage sampleOptions)
        "Start-EKSBootstrap" = false
    ∧ strContains (createUserDataContent sampleCluster sampleLinuxImage sampleOptions)
        "powershell" = false := by
  refine ⟨fun hos => ?_, fun hos => ?_, by decide, by decide, by decide,
    by decide, by decide, by decide, by decide, by decide⟩
  · have hcu : createUserDataContent cluster machineImage options
        = windowsUserDataContent cluster machineImage options := by
      unfold createUserDataContent
      rw [hos]
    refine ⟨hcu, ?_⟩
    rw [hcu]
    simp only [windowsUserDataContent, String.data_append, List.append_assoc]
    exact List.prefix_append _ _
  · have hcu : createUserDataContent cluster machineImage options
        = String.intercalate "\n" (linuxUserDataLines cluster machineImage options) := by
      unfold createUserDataContent
      rw [hos]
    have h12 : ("    apiServerEndpoint: " ++ cluster.clusterEndpoint)
        ≠ "Content-Type: application/node.eks.aws" :=
      append_ne_of_head _ _ _ (by decide) (by decide)
    have h13 : ("    certificateAuthority: " ++ cluster.clusterCertificateAuthorityData)
        ≠ "Content-Type: application/node.eks.aws" :=
      append_ne_of_head _ _ _ (by decide) (by decide)
    have h14 : ("    cidr: " ++ DEFAULT_SERVICE_IPV4_CIDR)
        ≠ "Content-Type: application/node.eks.aws" := by
      decide
    have h15 : ("    name: " ++ cluster.clusterName)
        ≠ "Content-Type: application/node.eks.aws" :=
      append_ne_of_head _ _ _ (by decide) (by decide)
    have h18 : ("      maxPods: " ++ maxPodsRendered (groupMaxPods options.instanceTypes))
        ≠ "Content-Type: application/node.eks.aws" :=
      append_ne_of_head _ _ _ (by decide) (by decide)
    have h20 : ("      - " ++ DEFAULT_DNS_CLUSTER_IP)
        ≠ "Content-Type: application/node.eks.aws" := by
      decide
    have h22 : ("    - \"--node-labels="
          ++ nodeLabelString machineImage.imageId options.nodegroupName options.labels
          ++ "\"")
        ≠ "Content-Type: application/node.eks.aws" := by
      rw [String.append_assoc]
      exact append_ne_of_head _ _ _ (by decide) (by decide)
    refine ⟨hcu, ?_, ?_, ?_, ?_, ?_, ?_, ?_, ?_, ?_, ?_⟩
    · simp [linuxUserDataLines, List.count_cons, h12, h13, h14, h15, h18, h20, h22]
    · simp [linuxUserDataLines]
    · simp [linuxUserDataLines]
    · simp [linuxUserDataLines]
    · simp [linuxUserDataLines]
    · simp [linuxUserDataLines]
    · simp [linuxUserDataLines]
    · simp [linuxUserDataLines]
    · simp [linuxUserDataLines]
    · simp [linuxUserDataLines]

/-- Witness for C6 at the sample inputs, one per OS family. -/
theorem c6_bootstrap_payload_witness :
    createUserDataContent sampleCluster sampleWindowsImage sampleOptions
        = windowsUserDataContent sampleCluster sampleWindowsImage sampleOptions
    ∧ (linuxUserDataLines sampleCluster sampleLinuxImage sampleOptions).count
        "Content-Type: application/node.eks.aws" = 1
    ∧ ("    name: " ++ sampleCluster.clusterName)
        ∈ linuxUserDataLines sampleCluster sampleLinuxImage sampleOptions :=
  ⟨((c6_bootstrap_payload sampleCluster sampleWindowsImage sampleOptions).1 rfl).1,
   ((c6_bootstrap_payload sampleCluster sampleLinuxImage sampleOptions).2.1 rfl).2.1,
   ((c6_bootstrap_payload sampleCluster sampleLinuxImage sampleOptions).2.1 rfl).2.2.2.2.2.2.2.1⟩

end CdkEksPlatform
